import Mathlib

/-!
# Verification of the skiwithcare.com proximity filter/sort engine

Shallow embedding of the repository's core logic:

* `haversine` — great-circle distance primitive (`src/utils/haversine.ts`);
* `useFilteredData` — the filter/sort pipeline for the four entity
  collections (`src/hooks/useFilteredData.ts`);
* `getNearestClinics` / `getNearestResorts` / `getNearestResortsFromHospital`
  — the cross-category nearest-K lookup callbacks (`App.tsx`);
* `loadResorts` and friends — the normalisation performed by the `useData`
  loader (`src/hooks/useData.ts`).

JavaScript numbers are modelled as real numbers (`ℝ`); `Array.prototype.sort`
with a numeric key comparator is modelled as a stable sort
(`List.insertionSort`); records are Lean structures, with JS objects'
possibly-missing fields modelled as `Option`.
-/

namespace SkiWithCare

/-- A latitude/longitude pair, as in `src/types` `Coordinates`. -/
structure Coordinates where
  lat : ℝ
  lon : ℝ

/-- The distance unit parameter of `haversine` (`"miles" | "km"`, default miles). -/
inductive DistanceUnit
  | miles
  | km
deriving DecidableEq

/-- JavaScript's `Math.atan2 y x`, i.e. the argument of the complex number
`x + i y` (range `(-π, π]`, `atan2 0 0 = 0`). -/
noncomputable def atan2 (y x : ℝ) : ℝ :=
  Complex.arg (Complex.mk x y)

/-- Degrees to radians, from `src/utils/haversine.ts` `toRadians`. -/
noncomputable def toRadians (degrees : ℝ) : ℝ :=
  degrees * Real.pi / 180

/-- Earth's radius in miles (`EARTH_RADIUS_MILES`). -/
def EARTH_RADIUS_MILES : ℝ := 3958.8

/-- Earth's radius in kilometers (`EARTH_RADIUS_KM`). -/
def EARTH_RADIUS_KM : ℝ := 6371

/-- The haversine great-circle distance of `src/utils/haversine.ts`. -/
noncomputable def haversine (point1 point2 : Coordinates) (unit : DistanceUnit) : ℝ :=
  let R : ℝ := match unit with
    | DistanceUnit.km => EARTH_RADIUS_KM
    | DistanceUnit.miles => EARTH_RADIUS_MILES
  let dLat := toRadians (point2.lat - point1.lat)
  let dLon := toRadians (point2.lon - point1.lon)
  let a := Real.sin (dLat / 2) * Real.sin (dLat / 2) +
    Real.cos (toRadians point1.lat) * Real.cos (toRadians point2.lat) *
      (Real.sin (dLon / 2) * Real.sin (dLon / 2))
  let c := 2 * atan2 (Real.sqrt a) (Real.sqrt (1 - a))
  R * c

lemma atan2_nonneg {y x : ℝ} (hy : 0 ≤ y) : 0 ≤ atan2 y x := by
  unfold atan2
  exact Complex.arg_nonneg_iff.mpr hy

lemma atan2_zero_one : atan2 0 1 = 0 := by
  have h : Complex.mk 1 0 = (1 : ℂ) := by
    apply Complex.ext <;> simp
  unfold atan2
  rw [h, Complex.arg_one]

lemma two_atan2_sqrt_nonneg (a b : ℝ) :
    0 ≤ 2 * atan2 (Real.sqrt a) (Real.sqrt b) :=
  mul_nonneg (by norm_num) (atan2_nonneg (Real.sqrt_nonneg a))

lemma haversine_nonneg (p q : Coordinates) (u : DistanceUnit) :
    0 ≤ haversine p q u := by
  unfold haversine
  dsimp only
  exact mul_nonneg (by cases u <;> norm_num [EARTH_RADIUS_MILES, EARTH_RADIUS_KM])
    (two_atan2_sqrt_nonneg _ _)

lemma haversine_self (p : Coordinates) (u : DistanceUnit) :
    haversine p p u = 0 := by
  unfold haversine
  have hz : p.lat - p.lat = 0 := by ring
  have hz' : p.lon - p.lon = 0 := by ring
  rw [hz, hz']
  have hr : toRadians 0 = 0 := by unfold toRadians; ring
  rw [hr]
  simp only [zero_div, Real.sin_zero, mul_zero, zero_mul, zero_add, mul_zero,
    add_zero, Real.sqrt_zero, sub_zero, Real.sqrt_one, atan2_zero_one]

/-- C8 — Haversine output contract: for all coordinate pairs and either
unit, the distance is non-negative, and the distance from any point to
itself is zero. -/
theorem haversine_output_contract :
    ∀ (p q : Coordinates) (u : DistanceUnit),
      0 ≤ haversine p q u ∧ haversine p p u = 0 :=
  fun p q u => ⟨haversine_nonneg p q u, haversine_self p u⟩

/-! ## Data model (`src/types`)

Presentation-only optional fields (phone, website, verification metadata,
hours, …) are omitted: the filter/sort engine never reads them.  JS objects
may carry a `distance` annotation (`Resort & \x7b distance?: number \x7d`),
modelled as an `Option ℝ` field that is `none` on raw records. -/

/-- Ski pass network (`src/types/resort.ts` `PassNetwork`). -/
inductive PassNetwork
  | epic
  | ikon
  | both
  | independent
deriving DecidableEq

/-- Care type filter tags (`src/stores/filterStore.ts` `CareType`). -/
inductive CareType
  | dialysis
  | hospital
deriving DecidableEq

/-- Ski resort (`src/types/resort.ts`).  The loader leaves `passNetwork`
absent for independent resorts, hence `Option`. -/
structure Resort where
  id : String
  name : String
  state : String
  lat : ℝ
  lon : ℝ
  passNetwork : Option PassNetwork
  region : String
  distance : Option ℝ

/-- Dialysis clinic (`src/types/clinic.ts`).  `provider` is kept as a plain
string, as only case-insensitive substring search reads it. -/
structure Clinic where
  ccn : String
  facility : String
  provider : String
  address : String
  city : String
  state : String
  zip : String
  lat : ℝ
  lon : ℝ
  distance : Option ℝ

/-- Hospital (`src/types/hospital.ts`). -/
structure Hospital where
  id : String
  name : String
  address : String
  city : String
  state : String
  zip : String
  lat : ℝ
  lon : ℝ
  hasEmergency : Bool
  distance : Option ℝ

/-- Urgent-care facility (`src/types/facility.ts`). -/
structure Facility where
  id : String
  name : String
  facilityType : String
  address : String
  city : String
  state : String
  zip : String
  lat : ℝ
  lon : ℝ
  distance : Option ℝ

def Resort.coords (r : Resort) : Coordinates := ⟨r.lat, r.lon⟩

def Resort.setDistance (r : Resort) (d : ℝ) : Resort := { r with distance := some d }

def Clinic.coords (c : Clinic) : Coordinates := ⟨c.lat, c.lon⟩

def Clinic.setDistance (c : Clinic) (d : ℝ) : Clinic := { c with distance := some d }

def Hospital.coords (h : Hospital) : Coordinates := ⟨h.lat, h.lon⟩

def Hospital.setDistance (h : Hospital) (d : ℝ) : Hospital := { h with distance := some d }

def Facility.coords (f : Facility) : Coordinates := ⟨f.lat, f.lon⟩

def Facility.setDistance (f : Facility) (d : ℝ) : Facility := { f with distance := some d }

/-! ## Filter and location state (`src/stores`) -/

/-- The filter criteria of `src/stores/filterStore.ts` (`FilterState`
minus its actions).  JS `Set`s become `Finset`s. -/
structure FilterState where
  searchQuery : String
  selectedState : Option String
  maxDistance : ℝ
  passNetworks : Finset PassNetwork
  careTypes : Finset CareType

/-- The location inputs of `src/stores/locationStore.ts` read by the
pipeline.  Only the coordinates of `UserLocation` are consumed. -/
structure LocationState where
  userLocation : Option Coordinates
  mapCenter : Option Coordinates

/-- Tag of the resolved reference point (`"user" | "map"`). -/
inductive OriginType
  | user
  | map
deriving DecidableEq

/-- The resolved reference point (`FilteredData.sortOrigin`). -/
structure SortOrigin where
  originType : OriginType
  coords : Coordinates

/-- Reference-point resolution of `useFilteredData`: explicit user location
first, then map center, else none. -/
def resolveSortOrigin (loc : LocationState) : Option SortOrigin :=
  match loc.userLocation with
  | some u => some ⟨OriginType.user, u⟩
  | none =>
    match loc.mapCenter with
    | some m => some ⟨OriginType.map, m⟩
    | none => none

/-! ## The filter/sort pipeline (`src/hooks/useFilteredData.ts`) -/

/-- JS `String.prototype.includes`: substring containment. -/
def jsIncludes (s sub : String) : Bool :=
  decide (sub.data <:+: s.data)

/-- Sort key used by the comparator `(a.distance ?? Infinity) - (b.distance ?? Infinity)`:
an undefined distance compares as positive infinity. -/
def distKey (d : Option ℝ) : WithTop ℝ :=
  match d with
  | some x => (x : WithTop ℝ)
  | none => ⊤

/-- The `withDistance` helper of `useFilteredData`: annotate every item with
its haversine distance from the sort origin; identity when there is none. -/
noncomputable def withDistance {α : Type} (coords : α → Coordinates)
    (setDist : α → ℝ → α) (sortOrigin : Option SortOrigin)
    (items : List α) : List α :=
  match sortOrigin with
  | none => items
  | some o => items.map fun item =>
      setDist item (haversine o.coords (coords item) DistanceUnit.miles)

/-- The per-item test of the ceiling step:
`r.distance !== undefined && r.distance <= maxDistance`. -/
noncomputable def ceilingPred {α : Type} (dist : α → Option ℝ) (maxDistance : ℝ)
    (x : α) : Bool :=
  match dist x with
  | some d => decide (d ≤ maxDistance)
  | none => false

/-- The maximum-distance step of `useFilteredData`: applied only when the
user's explicit location is set and the ceiling is below the 200-mile
sentinel; keeps items whose defined distance is within the ceiling. -/
noncomputable def distanceCeilingFilter {α : Type} (dist : α → Option ℝ)
    (userLocation : Option Coordinates) (maxDistance : ℝ)
    (items : List α) : List α :=
  if userLocation.isSome ∧ maxDistance < 200 then
    items.filter (ceilingPred dist maxDistance)
  else items

/-- The comparator of the final sort, `(a.distance ?? Infinity) - (b.distance ?? Infinity)`,
as the ordering relation it induces. -/
def distLE {α : Type} (dist : α → Option ℝ) (a b : α) : Prop :=
  distKey (dist a) ≤ distKey (dist b)

noncomputable instance instDecidableDistLE {α : Type} (dist : α → Option ℝ) :
    DecidableRel (distLE dist) :=
  fun a b => inferInstanceAs (Decidable (distKey (dist a) ≤ distKey (dist b)))

/-- The final sort of `useFilteredData`: stable ascending sort by
`(distance ?? Infinity)` when a sort origin exists. -/
noncomputable def sortStep {α : Type} (dist : α → Option ℝ)
    (sortOrigin : Option SortOrigin) (items : List α) : List α :=
  if sortOrigin.isSome then items.insertionSort (distLE dist)
  else items

/-- Search predicate for resorts: name or state contains the query. -/
def resortSearchPred (searchLower : String) (r : Resort) : Bool :=
  jsIncludes r.name.toLower searchLower || jsIncludes r.state.toLower searchLower

/-- Search predicate for clinics: facility, city or provider contains the query. -/
def clinicSearchPred (searchLower : String) (c : Clinic) : Bool :=
  jsIncludes c.facility.toLower searchLower || jsIncludes c.city.toLower searchLower ||
    jsIncludes c.provider.toLower searchLower

/-- Search predicate for hospitals: name or city contains the query. -/
def hospitalSearchPred (searchLower : String) (h : Hospital) : Bool :=
  jsIncludes h.name.toLower searchLower || jsIncludes h.city.toLower searchLower

/-- Search predicate for urgent-care facilities: name or city contains the query. -/
def facilitySearchPred (searchLower : String) (f : Facility) : Bool :=
  jsIncludes f.name.toLower searchLower || jsIncludes f.city.toLower searchLower

/-- Pass-network inclusion test of `useFilteredData`: resorts with no
network always pass; `both` passes when epic or ikon is active; otherwise
the resort's network must be active. -/
def resortPassPred (passNetworks : Finset PassNetwork) (r : Resort) : Bool :=
  match r.passNetwork with
  | none => true
  | some PassNetwork.both =>
      decide (PassNetwork.epic ∈ passNetworks) || decide (PassNetwork.ikon ∈ passNetworks)
  | some p => decide (p ∈ passNetworks)

/-- The resort branch of `useFilteredData`. -/
noncomputable def filterResorts (f : FilterState) (loc : LocationState)
    (resorts : List Resort) : List Resort :=
  let searchLower := f.searchQuery.toLower.trim
  let so := resolveSortOrigin loc
  let l0 := withDistance Resort.coords Resort.setDistance so resorts
  let l1 := if searchLower ≠ "" then l0.filter (resortSearchPred searchLower) else l0
  let l2 := if f.selectedState.isSome then
      l1.filter (fun r => f.selectedState == some r.state) else l1
  let l3 := if 0 < f.passNetworks.card then
      l2.filter (resortPassPred f.passNetworks) else l2
  let l4 := distanceCeilingFilter Resort.distance loc.userLocation f.maxDistance l3
  sortStep Resort.distance so l4

/-- The clinic branch of `useFilteredData`.  When care types are filtered
and dialysis is not among them the whole collection is emptied. -/
noncomputable def filterClinics (f : FilterState) (loc : LocationState)
    (clinics : List Clinic) : List Clinic :=
  let searchLower := f.searchQuery.toLower.trim
  let so := resolveSortOrigin loc
  let l0 := withDistance Clinic.coords Clinic.setDistance so clinics
  let l1 := if searchLower ≠ "" then l0.filter (clinicSearchPred searchLower) else l0
  let l2 := if f.selectedState.isSome then
      l1.filter (fun c => f.selectedState == some c.state) else l1
  let l3 := if 0 < f.careTypes.card ∧ CareType.dialysis ∉ f.careTypes then [] else l2
  let l4 := distanceCeilingFilter Clinic.distance loc.userLocation f.maxDistance l3
  sortStep Clinic.distance so l4

/-- The hospital branch of `useFilteredData`. -/
noncomputable def filterHospitals (f : FilterState) (loc : LocationState)
    (hospitals : List Hospital) : List Hospital :=
  let searchLower := f.searchQuery.toLower.trim
  let so := resolveSortOrigin loc
  let l0 := withDistance Hospital.coords Hospital.setDistance so hospitals
  let l1 := if searchLower ≠ "" then l0.filter (hospitalSearchPred searchLower) else l0
  let l2 := if f.selectedState.isSome then
      l1.filter (fun h => f.selectedState == some h.state) else l1
  let l3 := if 0 < f.careTypes.card ∧ CareType.hospital ∉ f.careTypes then [] else l2
  let l4 := distanceCeilingFilter Hospital.distance loc.userLocation f.maxDistance l3
  sortStep Hospital.distance so l4

/-- The urgent-care branch of `useFilteredData` (no care-type step). -/
noncomputable def filterUrgentCare (f : FilterState) (loc : LocationState)
    (urgentCare : List Facility) : List Facility :=
  let searchLower := f.searchQuery.toLower.trim
  let so := resolveSortOrigin loc
  let l0 := withDistance Facility.coords Facility.setDistance so urgentCare
  let l1 := if searchLower ≠ "" then l0.filter (facilitySearchPred searchLower) else l0
  let l2 := if f.selectedState.isSome then
      l1.filter (fun x => f.selectedState == some x.state) else l1
  let l4 := distanceCeilingFilter Facility.distance loc.userLocation f.maxDistance l2
  sortStep Facility.distance so l4

/-- Result record of `useFilteredData`. -/
structure FilteredData where
  resorts : List Resort
  clinics : List Clinic
  hospitals : List Hospital
  urgentCare : List Facility
  sortOrigin : Option SortOrigin

/-- The filter/sort pipeline of `src/hooks/useFilteredData.ts`. -/
noncomputable def useFilteredData (resorts : List Resort) (clinics : List Clinic)
    (hospitals : List Hospital) (urgentCare : List Facility)
    (f : FilterState) (loc : LocationState) : FilteredData :=
  { resorts := filterResorts f loc resorts
    clinics := filterClinics f loc clinics
    hospitals := filterHospitals f loc hospitals
    urgentCare := filterUrgentCare f loc urgentCare
    sortOrigin := resolveSortOrigin loc }

/-! ## Category-inclusion policy (claims C3, C10) -/

lemma utf8ByteSize_empty : ("" : String).utf8ByteSize = 0 := rfl

lemma trim_empty : ("" : String).trim = "" := by
  unfold String.trim String.toSubstring Substring.trim
  dsimp only
  rw [Substring.takeWhileAux, Substring.takeRightWhileAux]
  simp [String.endPos, utf8ByteSize_empty]
  rfl

lemma toLower_trim_empty : ("" : String).toLower.trim = "" := by
  rw [show ("" : String).toLower = "" from by
    unfold String.toLower String.map
    rw [String.mapAux]
    simp [String.atEnd, utf8ByteSize_empty], trim_empty]

lemma resolveSortOrigin_eq_none {loc : LocationState} (hu : loc.userLocation = none)
    (hm : loc.mapCenter = none) : resolveSortOrigin loc = none := by
  unfold resolveSortOrigin
  rw [hu, hm]

/-- With search, state, location and ceiling neutral and a non-empty active
pass-network set, the resort branch of the pipeline is exactly the
pass-network filter. -/
lemma filterResorts_neutral {f : FilterState} {loc : LocationState}
    (resorts : List Resort)
    (hq : f.searchQuery.toLower.trim = "") (hst : f.selectedState = none)
    (hu : loc.userLocation = none) (hm : loc.mapCenter = none)
    (hpn : f.passNetworks.Nonempty) :
    filterResorts f loc resorts = resorts.filter (resortPassPred f.passNetworks) := by
  unfold filterResorts
  rw [resolveSortOrigin_eq_none hu hm, hq, hst, hu]
  simp only [withDistance, distanceCeilingFilter, sortStep, Option.isSome_none,
    Bool.false_eq_true, false_and, if_false, ne_eq, not_true_eq_false]
  rw [if_pos (Finset.card_pos.mpr hpn)]

/-- C3 — Category-inclusion policy: with a non-empty active pass-network
set and all other criteria neutral, a resort with no `passNetwork` is
always in the filtered output, and a `both` resort is in the output iff
epic or ikon is active. -/
theorem category_inclusion_policy
    (resorts : List Resort) (clinics : List Clinic) (hospitals : List Hospital)
    (urgentCare : List Facility) (f : FilterState) (loc : LocationState)
    (rIndep rBoth : Resort)
    (hq : f.searchQuery.toLower.trim = "") (hst : f.selectedState = none)
    (hu : loc.userLocation = none) (hm : loc.mapCenter = none)
    (hpn : f.passNetworks.Nonempty)
    (hIndepMem : rIndep ∈ resorts) (hIndep : rIndep.passNetwork = none)
    (hBothMem : rBoth ∈ resorts) (hBoth : rBoth.passNetwork = some PassNetwork.both) :
    rIndep ∈ (useFilteredData resorts clinics hospitals urgentCare f loc).resorts ∧
      (rBoth ∈ (useFilteredData resorts clinics hospitals urgentCare f loc).resorts ↔
        PassNetwork.epic ∈ f.passNetworks ∨ PassNetwork.ikon ∈ f.passNetworks) := by
  have hout : (useFilteredData resorts clinics hospitals urgentCare f loc).resorts
      = resorts.filter (resortPassPred f.passNetworks) :=
    filterResorts_neutral resorts hq hst hu hm hpn
  rw [hout]
  constructor
  · exact List.mem_filter.mpr ⟨hIndepMem, by simp [resortPassPred, hIndep]⟩
  · rw [List.mem_filter]
    simp [resortPassPred, hBoth, hBothMem]

/-- Witness for C3 at a concrete input: two resorts, active set `\x7bikon\x7d`. -/
theorem category_inclusion_policy_witness :
    letI rIndep : Resort := ⟨"A", "A", "CO", 0, 0, none, "rockies", none⟩
    letI rBoth : Resort := ⟨"B", "B", "CO", 1, 1, some PassNetwork.both, "rockies", none⟩
    letI f : FilterState := ⟨"", none, 100, {PassNetwork.ikon}, ∅⟩
    letI loc : LocationState := ⟨none, none⟩
    rIndep ∈ (useFilteredData [rIndep, rBoth] [] [] [] f loc).resorts ∧
      (rBoth ∈ (useFilteredData [rIndep, rBoth] [] [] [] f loc).resorts ↔
        PassNetwork.epic ∈ ({PassNetwork.ikon} : Finset PassNetwork) ∨
          PassNetwork.ikon ∈ ({PassNetwork.ikon} : Finset PassNetwork)) :=
  category_inclusion_policy _ _ _ _ _ _ _ _
    toLower_trim_empty rfl rfl rfl (by decide)
    (by simp) rfl (by simp) rfl

/-- C10 — A resort whose `passNetwork` is the literal `independent` tag is
excluded whenever the active set is non-empty and does not contain
`independent`; the always-included rule is only for absent `passNetwork`. -/
theorem independent_tag_excluded
    (resorts : List Resort) (clinics : List Clinic) (hospitals : List Hospital)
    (urgentCare : List Facility) (f : FilterState) (loc : LocationState)
    (r : Resort)
    (hq : f.searchQuery.toLower.trim = "") (hst : f.selectedState = none)
    (hu : loc.userLocation = none) (hm : loc.mapCenter = none)
    (hpn : f.passNetworks.Nonempty)
    (hNotIn : PassNetwork.independent ∉ f.passNetworks)
    (hr : r.passNetwork = some PassNetwork.independent) :
    r ∉ (useFilteredData resorts clinics hospitals urgentCare f loc).resorts := by
  have hout : (useFilteredData resorts clinics hospitals urgentCare f loc).resorts
      = resorts.filter (resortPassPred f.passNetworks) :=
    filterResorts_neutral resorts hq hst hu hm hpn
  rw [hout]
  intro hmem
  have := (List.mem_filter.mp hmem).2
  simp [resortPassPred, hr] at this
  exact hNotIn this

/-- Witness for C10: an `independent`-tagged resort is dropped when only
ikon is active. -/
theorem independent_tag_excluded_witness :
    letI r : Resort := ⟨"C", "C", "CO", 0, 0, some PassNetwork.independent, "rockies", none⟩
    letI f : FilterState := ⟨"", none, 100, {PassNetwork.ikon}, ∅⟩
    letI loc : LocationState := ⟨none, none⟩
    r ∉ (useFilteredData [r] [] [] [] f loc).resorts :=
  independent_tag_excluded _ _ _ _ _ _ _
    toLower_trim_empty rfl rfl rfl (by decide) (by decide) rfl

/-! ## The maximum-distance ceiling (claim C4) -/

/-- C4 — Ceiling activation: an item with computed distance `d` is removed
by the distance-ceiling step iff an explicit user location is set, the
ceiling is strictly below the 200-mile sentinel, and `d` exceeds the
ceiling.  With no user location (in particular when the reference point is
only the map center) the step removes nothing. -/
theorem max_distance_ceiling_activation {α : Type} (dist : α → Option ℝ)
    (userLocation : Option Coordinates) (maxDistance : ℝ) (items : List α)
    (x : α) (d : ℝ) (hx : x ∈ items) (hd : dist x = some d) :
    (x ∉ distanceCeilingFilter dist userLocation maxDistance items ↔
      userLocation.isSome ∧ maxDistance < 200 ∧ maxDistance < d) ∧
    distanceCeilingFilter dist none maxDistance items = items := by
  constructor
  · unfold distanceCeilingFilter
    by_cases hcond : userLocation.isSome ∧ maxDistance < 200
    · rw [if_pos hcond]
      constructor
      · intro hnot
        refine ⟨hcond.1, hcond.2, ?_⟩
        by_contra hle
        push_neg at hle
        refine hnot (List.mem_filter.mpr ⟨hx, ?_⟩)
        simp [ceilingPred, hd, hle]
      · rintro ⟨-, -, hgt⟩ hmem
        have hp := (List.mem_filter.mp hmem).2
        simp [ceilingPred, hd] at hp
        linarith
    · rw [if_neg hcond]
      constructor
      · intro h
        exact absurd hx h
      · intro h
        exact absurd ⟨h.1, h.2.1⟩ hcond
  · unfold distanceCeilingFilter
    simp

/-- Witness for C4: a resort 150 miles out against a 100-mile ceiling. -/
theorem max_distance_ceiling_activation_witness :
    letI r : Resort := ⟨"A", "A", "CO", 0, 0, none, "rockies", some 150⟩
    r ∈ [r] ∧ Resort.distance r = some 150 ∧
      ((r ∉ distanceCeilingFilter Resort.distance (some ⟨39, -105⟩) 100 [r] ↔
        (some (Coordinates.mk 39 (-105))).isSome ∧ (100 : ℝ) < 200 ∧ (100 : ℝ) < 150) ∧
      distanceCeilingFilter Resort.distance none 100 [r] = [r]) :=
  ⟨by simp, rfl,
    max_distance_ceiling_activation Resort.distance (some ⟨39, -105⟩) 100 _ _ 150
      (by simp) rfl⟩

/-! ## Sort correctness (claim C5) -/

lemma sortStep_eq_insertionSort {α : Type} (dist : α → Option ℝ) (o : SortOrigin)
    (l : List α) : sortStep dist (some o) l = l.insertionSort (distLE dist) := by
  unfold sortStep
  rw [if_pos (by simp)]

lemma sortStep_none {α : Type} (dist : α → Option ℝ) (l : List α) :
    sortStep dist none l = l := by
  unfold sortStep
  rw [if_neg (by simp)]

lemma distLE_total {α : Type} (dist : α → Option ℝ) :
    IsTotal α (distLE dist) :=
  ⟨fun _ _ => le_total _ _⟩

lemma distLE_trans {α : Type} (dist : α → Option ℝ) :
    IsTrans α (distLE dist) :=
  ⟨fun _ _ _ hab hbc => le_trans hab hbc⟩

lemma sortStep_sorted {α : Type} (dist : α → Option ℝ) (o : SortOrigin)
    (l : List α) : (sortStep dist (some o) l).Sorted (distLE dist) := by
  rw [sortStep_eq_insertionSort]
  haveI := distLE_total dist
  haveI := distLE_trans dist
  exact List.sorted_insertionSort _ _

lemma distanceCeilingFilter_sublist {α : Type} (dist : α → Option ℝ)
    (u : Option Coordinates) (m : ℝ) (l : List α) :
    List.Sublist (distanceCeilingFilter dist u m l) l := by
  unfold distanceCeilingFilter
  split
  · exact List.filter_sublist _
  · exact List.Sublist.refl _

lemma ite_filter_sublist {α : Type} (c : Prop) [Decidable c] (p : α → Bool)
    (l : List α) : List.Sublist (if c then l.filter p else l) l := by
  split
  · exact List.filter_sublist _
  · exact List.Sublist.refl _

lemma ite_nil_sublist {α : Type} (c : Prop) [Decidable c] (l : List α) :
    List.Sublist (if c then ([] : List α) else l) l := by
  split
  · exact List.nil_sublist _
  · exact List.Sublist.refl _

lemma filterResorts_sorted {f : FilterState} {loc : LocationState}
    (resorts : List Resort) {o : SortOrigin}
    (h : resolveSortOrigin loc = some o) :
    (filterResorts f loc resorts).Sorted (distLE Resort.distance) := by
  unfold filterResorts
  dsimp only
  rw [h]
  exact sortStep_sorted _ _ _

lemma filterClinics_sorted {f : FilterState} {loc : LocationState}
    (clinics : List Clinic) {o : SortOrigin}
    (h : resolveSortOrigin loc = some o) :
    (filterClinics f loc clinics).Sorted (distLE Clinic.distance) := by
  unfold filterClinics
  dsimp only
  rw [h]
  exact sortStep_sorted _ _ _

lemma filterHospitals_sorted {f : FilterState} {loc : LocationState}
    (hospitals : List Hospital) {o : SortOrigin}
    (h : resolveSortOrigin loc = some o) :
    (filterHospitals f loc hospitals).Sorted (distLE Hospital.distance) := by
  unfold filterHospitals
  dsimp only
  rw [h]
  exact sortStep_sorted _ _ _

lemma filterUrgentCare_sorted {f : FilterState} {loc : LocationState}
    (urgentCare : List Facility) {o : SortOrigin}
    (h : resolveSortOrigin loc = some o) :
    (filterUrgentCare f loc urgentCare).Sorted (distLE Facility.distance) := by
  unfold filterUrgentCare
  dsimp only
  rw [h]
  exact sortStep_sorted _ _ _

lemma filterResorts_sublist {f : FilterState} {loc : LocationState}
    (resorts : List Resort) (h : resolveSortOrigin loc = none) :
    List.Sublist (filterResorts f loc resorts) resorts := by
  unfold filterResorts
  dsimp only
  rw [h, sortStep_none]
  unfold withDistance
  refine ((distanceCeilingFilter_sublist _ _ _ _).trans ?_)
  exact ((ite_filter_sublist _ _ _).trans ((ite_filter_sublist _ _ _).trans
    (ite_filter_sublist _ _ _)))

lemma filterClinics_sublist {f : FilterState} {loc : LocationState}
    (clinics : List Clinic) (h : resolveSortOrigin loc = none) :
    List.Sublist (filterClinics f loc clinics) clinics := by
  unfold filterClinics
  dsimp only
  rw [h, sortStep_none]
  unfold withDistance
  refine ((distanceCeilingFilter_sublist _ _ _ _).trans ?_)
  exact ((ite_nil_sublist _ _).trans ((ite_filter_sublist _ _ _).trans
    (ite_filter_sublist _ _ _)))

lemma filterHospitals_sublist {f : FilterState} {loc : LocationState}
    (hospitals : List Hospital) (h : resolveSortOrigin loc = none) :
    List.Sublist (filterHospitals f loc hospitals) hospitals := by
  unfold filterHospitals
  dsimp only
  rw [h, sortStep_none]
  unfold withDistance
  refine ((distanceCeilingFilter_sublist _ _ _ _).trans ?_)
  exact ((ite_nil_sublist _ _).trans ((ite_filter_sublist _ _ _).trans
    (ite_filter_sublist _ _ _)))

lemma filterUrgentCare_sublist {f : FilterState} {loc : LocationState}
    (urgentCare : List Facility) (h : resolveSortOrigin loc = none) :
    List.Sublist (filterUrgentCare f loc urgentCare) urgentCare := by
  unfold filterUrgentCare
  dsimp only
  rw [h, sortStep_none]
  unfold withDistance
  refine ((distanceCeilingFilter_sublist _ _ _ _).trans ?_)
  exact ((ite_filter_sublist _ _ _).trans (ite_filter_sublist _ _ _))

/-- C5 — Sort correctness: when a reference point exists every output
collection is sorted by non-decreasing `(distance ?? Infinity)` (so
undefined distances come last); with no reference point every output
collection is a sublist of its input, i.e. in source order. -/
theorem sort_correctness (resorts : List Resort) (clinics : List Clinic)
    (hospitals : List Hospital) (urgentCare : List Facility)
    (f : FilterState) (loc : LocationState) :
    match resolveSortOrigin loc with
    | some _ =>
        (useFilteredData resorts clinics hospitals urgentCare f loc).resorts.Sorted
            (distLE Resort.distance) ∧
        (useFilteredData resorts clinics hospitals urgentCare f loc).clinics.Sorted
            (distLE Clinic.distance) ∧
        (useFilteredData resorts clinics hospitals urgentCare f loc).hospitals.Sorted
            (distLE Hospital.distance) ∧
        (useFilteredData resorts clinics hospitals urgentCare f loc).urgentCare.Sorted
            (distLE Facility.distance)
    | none =>
        List.Sublist (useFilteredData resorts clinics hospitals urgentCare f loc).resorts resorts ∧
        List.Sublist (useFilteredData resorts clinics hospitals urgentCare f loc).clinics clinics ∧
        List.Sublist (useFilteredData resorts clinics hospitals urgentCare f loc).hospitals hospitals ∧
        List.Sublist (useFilteredData resorts clinics hospitals urgentCare f loc).urgentCare urgentCare := by
  cases h : resolveSortOrigin loc with
  | some o =>
      exact ⟨filterResorts_sorted resorts h, filterClinics_sorted clinics h,
        filterHospitals_sorted hospitals h, filterUrgentCare_sorted urgentCare h⟩
  | none =>
      exact ⟨filterResorts_sublist resorts h, filterClinics_sublist clinics h,
        filterHospitals_sublist hospitals h, filterUrgentCare_sublist urgentCare h⟩

/-! ## Filter idempotence (claim C7) -/

lemma mem_ite_filter {α : Type} {c : Prop} [Decidable c] {p : α → Bool}
    {l : List α} {x : α} (hx : x ∈ (if c then l.filter p else l)) : x ∈ l := by
  by_cases hc : c
  · rw [if_pos hc] at hx
    exact (List.mem_filter.mp hx).1
  · rwa [if_neg hc] at hx

lemma pred_of_mem_ite_filter {α : Type} {c : Prop} [Decidable c] (p : α → Bool)
    {l : List α} {x : α} (hc : c) (hx : x ∈ (if c then l.filter p else l)) :
    p x = true := by
  rw [if_pos hc] at hx
  exact (List.mem_filter.mp hx).2

lemma ite_filter_eq_self {α : Type} {c : Prop} [Decidable c] {p : α → Bool}
    {l : List α} (h : c → ∀ x ∈ l, p x = true) :
    (if c then l.filter p else l) = l := by
  by_cases hc : c
  · rw [if_pos hc]
    exact List.filter_eq_self.mpr (h hc)
  · rw [if_neg hc]

lemma mem_ite_nil {α : Type} {c : Prop} [Decidable c] {l : List α} {x : α}
    (hx : x ∈ (if c then ([] : List α) else l)) : x ∈ l := by
  by_cases hc : c
  · rw [if_pos hc] at hx
    exact absurd hx (List.not_mem_nil x)
  · rwa [if_neg hc] at hx

lemma mem_sortStep {α : Type} {dist : α → Option ℝ} {so : Option SortOrigin}
    {l : List α} {x : α} (hx : x ∈ sortStep dist so l) : x ∈ l := by
  unfold sortStep at hx
  by_cases hc : so.isSome
  · rw [if_pos hc] at hx
    exact (List.mem_insertionSort _).mp hx
  · rwa [if_neg hc] at hx

lemma sortStep_eq_of_sorted {α : Type} {dist : α → Option ℝ}
    {so : Option SortOrigin} {l : List α} (h : l.Sorted (distLE dist)) :
    sortStep dist so l = l := by
  unfold sortStep
  by_cases hc : so.isSome
  · rw [if_pos hc]
    exact h.insertionSort_eq
  · rw [if_neg hc]

lemma mem_distanceCeilingFilter {α : Type} {dist : α → Option ℝ}
    {u : Option Coordinates} {m : ℝ} {l : List α} {x : α}
    (hx : x ∈ distanceCeilingFilter dist u m l) : x ∈ l := by
  unfold distanceCeilingFilter at hx
  exact mem_ite_filter hx

lemma pred_of_mem_distanceCeilingFilter {α : Type} {dist : α → Option ℝ}
    {u : Option Coordinates} {m : ℝ} {l : List α} {x : α}
    (hc : u.isSome ∧ m < 200) (hx : x ∈ distanceCeilingFilter dist u m l) :
    ceilingPred dist m x = true := by
  unfold distanceCeilingFilter at hx
  exact pred_of_mem_ite_filter _ hc hx

lemma distanceCeilingFilter_eq_self {α : Type} {dist : α → Option ℝ}
    {u : Option Coordinates} {m : ℝ} {l : List α}
    (h : (u.isSome ∧ m < 200) → ∀ x ∈ l, ceilingPred dist m x = true) :
    distanceCeilingFilter dist u m l = l := by
  unfold distanceCeilingFilter
  exact ite_filter_eq_self h

lemma withDistance_map_eq {α : Type} (coords : α → Coordinates)
    (setDist : α → ℝ → α) (o : SortOrigin) (l : List α) :
    withDistance coords setDist (some o) l =
      l.map fun item => setDist item (haversine o.coords (coords item) DistanceUnit.miles) :=
  rfl

/-- Re-annotating an already annotated list is the identity, provided the
setter overwrites the distance and leaves the coordinates alone. -/
lemma withDistance_eq_self {α : Type} {coords : α → Coordinates}
    {setDist : α → ℝ → α}
    (hcoords : ∀ x d, coords (setDist x d) = coords x)
    (hset : ∀ x d e, setDist (setDist x d) e = setDist x e)
    {o : SortOrigin} {l l' : List α}
    (hsub : ∀ x ∈ l', x ∈ withDistance coords setDist (some o) l) :
    withDistance coords setDist (some o) l' = l' := by
  rw [withDistance_map_eq]
  have hfix : ∀ x ∈ l', setDist x (haversine o.coords (coords x) DistanceUnit.miles) = x := by
    intro x hx
    obtain ⟨y, -, hy⟩ := List.mem_map.mp (hsub x hx)
    calc setDist x (haversine o.coords (coords x) DistanceUnit.miles)
        = setDist y (haversine o.coords (coords y) DistanceUnit.miles) := by
          rw [← hy, hset, hcoords]
      _ = x := hy
  calc l'.map (fun item => setDist item (haversine o.coords (coords item) DistanceUnit.miles))
      = l'.map id := List.map_congr_left hfix
    _ = l' := List.map_id l'

lemma withDistance_none {α : Type} (coords : α → Coordinates)
    (setDist : α → ℝ → α) (l : List α) :
    withDistance coords setDist none l = l :=
  rfl

lemma resort_coords_setDistance (x : Resort) (d : ℝ) :
    Resort.coords (Resort.setDistance x d) = Resort.coords x := rfl

lemma resort_setDistance_setDistance (x : Resort) (d e : ℝ) :
    Resort.setDistance (Resort.setDistance x d) e = Resort.setDistance x e := rfl

lemma clinic_coords_setDistance (x : Clinic) (d : ℝ) :
    Clinic.coords (Clinic.setDistance x d) = Clinic.coords x := rfl

lemma clinic_setDistance_setDistance (x : Clinic) (d e : ℝ) :
    Clinic.setDistance (Clinic.setDistance x d) e = Clinic.setDistance x e := rfl

lemma hospital_coords_setDistance (x : Hospital) (d : ℝ) :
    Hospital.coords (Hospital.setDistance x d) = Hospital.coords x := rfl

lemma hospital_setDistance_setDistance (x : Hospital) (d e : ℝ) :
    Hospital.setDistance (Hospital.setDistance x d) e = Hospital.setDistance x e := rfl

lemma facility_coords_setDistance (x : Facility) (d : ℝ) :
    Facility.coords (Facility.setDistance x d) = Facility.coords x := rfl

lemma facility_setDistance_setDistance (x : Facility) (d e : ℝ) :
    Facility.setDistance (Facility.setDistance x d) e = Facility.setDistance x e := rfl

lemma userLocation_eq_none_of_resolve_none {loc : LocationState}
    (h : resolveSortOrigin loc = none) : loc.userLocation = none := by
  unfold resolveSortOrigin at h
  cases hu : loc.userLocation with
  | none => rfl
  | some u => rw [hu] at h; exact absurd h (by simp)

lemma withDistance_nil {α : Type} (coords : α → Coordinates) (setDist : α → ℝ → α)
    (so : Option SortOrigin) : withDistance coords setDist so [] = [] := by
  cases so <;> rfl

lemma ite_filter_nil {α : Type} (c : Prop) [Decidable c] (p : α → Bool) :
    (if c then List.filter p [] else []) = ([] : List α) := by
  by_cases hc : c
  · rw [if_pos hc, List.filter_nil]
  · rw [if_neg hc]

lemma distanceCeilingFilter_nil {α : Type} (dist : α → Option ℝ)
    (u : Option Coordinates) (m : ℝ) :
    distanceCeilingFilter dist u m [] = [] := by
  unfold distanceCeilingFilter
  exact ite_filter_nil _ _

lemma sortStep_nil {α : Type} (dist : α → Option ℝ) (so : Option SortOrigin) :
    sortStep dist so [] = [] := by
  unfold sortStep
  by_cases hc : so.isSome
  · rw [if_pos hc]
    rfl
  · rw [if_neg hc]

/-- Everything in the resort branch's output already passed every active
filter step. -/
lemma mem_filterResorts {f : FilterState} {loc : LocationState}
    {resorts : List Resort} {x : Resort} (hx : x ∈ filterResorts f loc resorts) :
    x ∈ withDistance Resort.coords Resort.setDistance (resolveSortOrigin loc) resorts ∧
    (f.searchQuery.toLower.trim ≠ "" →
      resortSearchPred (f.searchQuery.toLower.trim) x = true) ∧
    (f.selectedState.isSome → (f.selectedState == some x.state) = true) ∧
    (0 < f.passNetworks.card → resortPassPred f.passNetworks x = true) ∧
    ((loc.userLocation.isSome ∧ f.maxDistance < 200) →
      ceilingPred Resort.distance f.maxDistance x = true) := by
  unfold filterResorts at hx
  dsimp only at hx
  have h4 := mem_sortStep hx
  have h3 := mem_distanceCeilingFilter h4
  have h2 := mem_ite_filter h3
  have h1 := mem_ite_filter h2
  have h0 := mem_ite_filter h1
  exact ⟨h0, fun hc => pred_of_mem_ite_filter _ hc h1,
    fun hc => pred_of_mem_ite_filter (fun r : Resort => f.selectedState == some r.state) hc h2,
    fun hc => pred_of_mem_ite_filter _ hc h3,
    fun hc => pred_of_mem_distanceCeilingFilter hc h4⟩

lemma filterResorts_idem (f : FilterState) (loc : LocationState)
    (resorts : List Resort) :
    filterResorts f loc (filterResorts f loc resorts) = filterResorts f loc resorts := by
  set R := filterResorts f loc resorts with hR
  have hmem : ∀ x ∈ R,
      x ∈ withDistance Resort.coords Resort.setDistance (resolveSortOrigin loc) resorts ∧
      (f.searchQuery.toLower.trim ≠ "" →
        resortSearchPred (f.searchQuery.toLower.trim) x = true) ∧
      (f.selectedState.isSome → (f.selectedState == some x.state) = true) ∧
      (0 < f.passNetworks.card → resortPassPred f.passNetworks x = true) ∧
      ((loc.userLocation.isSome ∧ f.maxDistance < 200) →
        ceilingPred Resort.distance f.maxDistance x = true) :=
    fun x hx => mem_filterResorts (hR ▸ hx)
  cases hso : resolveSortOrigin loc with
  | none =>
      have hu := userLocation_eq_none_of_resolve_none hso
      unfold filterResorts
      dsimp only
      rw [hso, withDistance_none, sortStep_none]
      rw [ite_filter_eq_self fun hc x hx => (hmem x hx).2.1 hc]
      rw [ite_filter_eq_self fun hc x hx => (hmem x hx).2.2.1 hc]
      rw [ite_filter_eq_self fun hc x hx => (hmem x hx).2.2.2.1 hc]
      rw [distanceCeilingFilter_eq_self fun hc => absurd hc.1 (by rw [hu]; simp)]
  | some o =>
      have hsorted : R.Sorted (distLE Resort.distance) := by
        rw [hR]
        exact filterResorts_sorted resorts hso
      unfold filterResorts
      dsimp only
      rw [hso]
      rw [withDistance_eq_self resort_coords_setDistance resort_setDistance_setDistance
        (fun x hx => by have h := (hmem x hx).1; rwa [hso] at h)]
      rw [ite_filter_eq_self fun hc x hx => (hmem x hx).2.1 hc]
      rw [ite_filter_eq_self fun hc x hx => (hmem x hx).2.2.1 hc]
      rw [ite_filter_eq_self fun hc x hx => (hmem x hx).2.2.2.1 hc]
      rw [distanceCeilingFilter_eq_self fun hc x hx => (hmem x hx).2.2.2.2 hc]
      exact sortStep_eq_of_sorted hsorted

/-- Everything in the clinic branch's output already passed every active
filter step. -/
lemma mem_filterClinics {f : FilterState} {loc : LocationState}
    {clinics : List Clinic} {x : Clinic} (hx : x ∈ filterClinics f loc clinics) :
    x ∈ withDistance Clinic.coords Clinic.setDistance (resolveSortOrigin loc) clinics ∧
    (f.searchQuery.toLower.trim ≠ "" →
      clinicSearchPred (f.searchQuery.toLower.trim) x = true) ∧
    (f.selectedState.isSome → (f.selectedState == some x.state) = true) ∧
    ((loc.userLocation.isSome ∧ f.maxDistance < 200) →
      ceilingPred Clinic.distance f.maxDistance x = true) := by
  unfold filterClinics at hx
  dsimp only at hx
  have h4 := mem_sortStep hx
  have h3 := mem_distanceCeilingFilter h4
  have h2 := mem_ite_nil h3
  have h1 := mem_ite_filter h2
  have h0 := mem_ite_filter h1
  exact ⟨h0, fun hc => pred_of_mem_ite_filter _ hc h1,
    fun hc => pred_of_mem_ite_filter (fun y : Clinic => f.selectedState == some y.state) hc h2,
    fun hc => pred_of_mem_distanceCeilingFilter hc h4⟩

lemma filterClinics_nil (f : FilterState) (loc : LocationState) :
    filterClinics f loc [] = [] := by
  unfold filterClinics
  dsimp only
  rw [withDistance_nil, ite_filter_nil, ite_filter_nil, ite_self,
    distanceCeilingFilter_nil, sortStep_nil]

lemma filterClinics_eq_nil {f : FilterState} (loc : LocationState)
    (clinics : List Clinic)
    (hc : 0 < f.careTypes.card ∧ CareType.dialysis ∉ f.careTypes) :
    filterClinics f loc clinics = [] := by
  unfold filterClinics
  dsimp only
  rw [if_pos hc, distanceCeilingFilter_nil, sortStep_nil]

lemma filterClinics_idem (f : FilterState) (loc : LocationState)
    (clinics : List Clinic) :
    filterClinics f loc (filterClinics f loc clinics) = filterClinics f loc clinics := by
  by_cases hcare : 0 < f.careTypes.card ∧ CareType.dialysis ∉ f.careTypes
  · rw [filterClinics_eq_nil loc clinics hcare, filterClinics_nil]
  set R := filterClinics f loc clinics with hR
  have hmem : ∀ x ∈ R,
      x ∈ withDistance Clinic.coords Clinic.setDistance (resolveSortOrigin loc) clinics ∧
      (f.searchQuery.toLower.trim ≠ "" →
        clinicSearchPred (f.searchQuery.toLower.trim) x = true) ∧
      (f.selectedState.isSome → (f.selectedState == some x.state) = true) ∧
      ((loc.userLocation.isSome ∧ f.maxDistance < 200) →
        ceilingPred Clinic.distance f.maxDistance x = true) :=
    fun x hx => mem_filterClinics (hR ▸ hx)
  cases hso : resolveSortOrigin loc with
  | none =>
      have hu := userLocation_eq_none_of_resolve_none hso
      unfold filterClinics
      dsimp only
      rw [hso, withDistance_none, sortStep_none]
      rw [ite_filter_eq_self fun hc x hx => (hmem x hx).2.1 hc]
      rw [ite_filter_eq_self fun hc x hx => (hmem x hx).2.2.1 hc]
      rw [if_neg hcare]
      rw [distanceCeilingFilter_eq_self fun hc => absurd hc.1 (by rw [hu]; simp)]
  | some o =>
      have hsorted : R.Sorted (distLE Clinic.distance) := by
        rw [hR]
        exact filterClinics_sorted clinics hso
      unfold filterClinics
      dsimp only
      rw [hso]
      rw [withDistance_eq_self clinic_coords_setDistance clinic_setDistance_setDistance
        (fun x hx => by have h := (hmem x hx).1; rwa [hso] at h)]
      rw [ite_filter_eq_self fun hc x hx => (hmem x hx).2.1 hc]
      rw [ite_filter_eq_self fun hc x hx => (hmem x hx).2.2.1 hc]
      rw [if_neg hcare]
      rw [distanceCeilingFilter_eq_self fun hc x hx => (hmem x hx).2.2.2 hc]
      exact sortStep_eq_of_sorted hsorted

/-- Everything in the hospital branch's output already passed every active
filter step. -/
lemma mem_filterHospitals {f : FilterState} {loc : LocationState}
    {hospitals : List Hospital} {x : Hospital}
    (hx : x ∈ filterHospitals f loc hospitals) :
    x ∈ withDistance Hospital.coords Hospital.setDistance (resolveSortOrigin loc) hospitals ∧
    (f.searchQuery.toLower.trim ≠ "" →
      hospitalSearchPred (f.searchQuery.toLower.trim) x = true) ∧
    (f.selectedState.isSome → (f.selectedState == some x.state) = true) ∧
    ((loc.userLocation.isSome ∧ f.maxDistance < 200) →
      ceilingPred Hospital.distance f.maxDistance x = true) := by
  unfold filterHospitals at hx
  dsimp only at hx
  have h4 := mem_sortStep hx
  have h3 := mem_distanceCeilingFilter h4
  have h2 := mem_ite_nil h3
  have h1 := mem_ite_filter h2
  have h0 := mem_ite_filter h1
  exact ⟨h0, fun hc => pred_of_mem_ite_filter _ hc h1,
    fun hc => pred_of_mem_ite_filter (fun y : Hospital => f.selectedState == some y.state) hc h2,
    fun hc => pred_of_mem_distanceCeilingFilter hc h4⟩

lemma filterHospitals_nil (f : FilterState) (loc : LocationState) :
    filterHospitals f loc [] = [] := by
  unfold filterHospitals
  dsimp only
  rw [withDistance_nil, ite_filter_nil, ite_filter_nil, ite_self,
    distanceCeilingFilter_nil, sortStep_nil]

lemma filterHospitals_eq_nil {f : FilterState} (loc : LocationState)
    (hospitals : List Hospital)
    (hc : 0 < f.careTypes.card ∧ CareType.hospital ∉ f.careTypes) :
    filterHospitals f loc hospitals = [] := by
  unfold filterHospitals
  dsimp only
  rw [if_pos hc, distanceCeilingFilter_nil, sortStep_nil]

lemma filterHospitals_idem (f : FilterState) (loc : LocationState)
    (hospitals : List Hospital) :
    filterHospitals f loc (filterHospitals f loc hospitals)
      = filterHospitals f loc hospitals := by
  by_cases hcare : 0 < f.careTypes.card ∧ CareType.hospital ∉ f.careTypes
  · rw [filterHospitals_eq_nil loc hospitals hcare, filterHospitals_nil]
  set R := filterHospitals f loc hospitals with hR
  have hmem : ∀ x ∈ R,
      x ∈ withDistance Hospital.coords Hospital.setDistance (resolveSortOrigin loc) hospitals ∧
      (f.searchQuery.toLower.trim ≠ "" →
        hospitalSearchPred (f.searchQuery.toLower.trim) x = true) ∧
      (f.selectedState.isSome → (f.selectedState == some x.state) = true) ∧
      ((loc.userLocation.isSome ∧ f.maxDistance < 200) →
        ceilingPred Hospital.distance f.maxDistance x = true) :=
    fun x hx => mem_filterHospitals (hR ▸ hx)
  cases hso : resolveSortOrigin loc with
  | none =>
      have hu := userLocation_eq_none_of_resolve_none hso
      unfold filterHospitals
      dsimp only
      rw [hso, withDistance_none, sortStep_none]
      rw [ite_filter_eq_self fun hc x hx => (hmem x hx).2.1 hc]
      rw [ite_filter_eq_self fun hc x hx => (hmem x hx).2.2.1 hc]
      rw [if_neg hcare]
      rw [distanceCeilingFilter_eq_self fun hc => absurd hc.1 (by rw [hu]; simp)]
  | some o =>
      have hsorted : R.Sorted (distLE Hospital.distance) := by
        rw [hR]
        exact filterHospitals_sorted hospitals hso
      unfold filterHospitals
      dsimp only
      rw [hso]
      rw [withDistance_eq_self hospital_coords_setDistance hospital_setDistance_setDistance
        (fun x hx => by have h := (hmem x hx).1; rwa [hso] at h)]
      rw [ite_filter_eq_self fun hc x hx => (hmem x hx).2.1 hc]
      rw [ite_filter_eq_self fun hc x hx => (hmem x hx).2.2.1 hc]
      rw [if_neg hcare]
      rw [distanceCeilingFilter_eq_self fun hc x hx => (hmem x hx).2.2.2 hc]
      exact sortStep_eq_of_sorted hsorted

/-- Everything in the urgent-care branch's output already passed every
active filter step. -/
lemma mem_filterUrgentCare {f : FilterState} {loc : LocationState}
    {urgentCare : List Facility} {x : Facility}
    (hx : x ∈ filterUrgentCare f loc urgentCare) :
    x ∈ withDistance Facility.coords Facility.setDistance (resolveSortOrigin loc) urgentCare ∧
    (f.searchQuery.toLower.trim ≠ "" →
      facilitySearchPred (f.searchQuery.toLower.trim) x = true) ∧
    (f.selectedState.isSome → (f.selectedState == some x.state) = true) ∧
    ((loc.userLocation.isSome ∧ f.maxDistance < 200) →
      ceilingPred Facility.distance f.maxDistance x = true) := by
  unfold filterUrgentCare at hx
  dsimp only at hx
  have h4 := mem_sortStep hx
  have h3 := mem_distanceCeilingFilter h4
  have h1 := mem_ite_filter h3
  have h0 := mem_ite_filter h1
  exact ⟨h0, fun hc => pred_of_mem_ite_filter _ hc h1,
    fun hc => pred_of_mem_ite_filter (fun y : Facility => f.selectedState == some y.state) hc h3,
    fun hc => pred_of_mem_distanceCeilingFilter hc h4⟩

lemma filterUrgentCare_idem (f : FilterState) (loc : LocationState)
    (urgentCare : List Facility) :
    filterUrgentCare f loc (filterUrgentCare f loc urgentCare)
      = filterUrgentCare f loc urgentCare := by
  set R := filterUrgentCare f loc urgentCare with hR
  have hmem : ∀ x ∈ R,
      x ∈ withDistance Facility.coords Facility.setDistance (resolveSortOrigin loc) urgentCare ∧
      (f.searchQuery.toLower.trim ≠ "" →
        facilitySearchPred (f.searchQuery.toLower.trim) x = true) ∧
      (f.selectedState.isSome → (f.selectedState == some x.state) = true) ∧
      ((loc.userLocation.isSome ∧ f.maxDistance < 200) →
        ceilingPred Facility.distance f.maxDistance x = true) :=
    fun x hx => mem_filterUrgentCare (hR ▸ hx)
  cases hso : resolveSortOrigin loc with
  | none =>
      have hu := userLocation_eq_none_of_resolve_none hso
      unfold filterUrgentCare
      dsimp only
      rw [hso, withDistance_none, sortStep_none]
      rw [ite_filter_eq_self fun hc x hx => (hmem x hx).2.1 hc]
      rw [ite_filter_eq_self fun hc x hx => (hmem x hx).2.2.1 hc]
      rw [distanceCeilingFilter_eq_self fun hc => absurd hc.1 (by rw [hu]; simp)]
  | some o =>
      have hsorted : R.Sorted (distLE Facility.distance) := by
        rw [hR]
        exact filterUrgentCare_sorted urgentCare hso
      unfold filterUrgentCare
      dsimp only
      rw [hso]
      rw [withDistance_eq_self facility_coords_setDistance facility_setDistance_setDistance
        (fun x hx => by have h := (hmem x hx).1; rwa [hso] at h)]
      rw [ite_filter_eq_self fun hc x hx => (hmem x hx).2.1 hc]
      rw [ite_filter_eq_self fun hc x hx => (hmem x hx).2.2.1 hc]
      rw [distanceCeilingFilter_eq_self fun hc x hx => (hmem x hx).2.2.2 hc]
      exact sortStep_eq_of_sorted hsorted

/-- C7 — Filter idempotence: with fixed criteria and reference point,
running the pipeline on its own output returns that output unchanged —
same members, same distance annotations, same order. -/
theorem filter_idempotence (resorts : List Resort) (clinics : List Clinic)
    (hospitals : List Hospital) (urgentCare : List Facility)
    (f : FilterState) (loc : LocationState) :
    useFilteredData
      (useFilteredData resorts clinics hospitals urgentCare f loc).resorts
      (useFilteredData resorts clinics hospitals urgentCare f loc).clinics
      (useFilteredData resorts clinics hospitals urgentCare f loc).hospitals
      (useFilteredData resorts clinics hospitals urgentCare f loc).urgentCare
      f loc
      = useFilteredData resorts clinics hospitals urgentCare f loc := by
  unfold useFilteredData
  dsimp only
  rw [filterResorts_idem, filterClinics_idem, filterHospitals_idem, filterUrgentCare_idem]

/-! ## Cross-category nearest-K lookup (claims C1, C2, C6)

`App.tsx` defines three callbacks — `getNearestClinics`, `getNearestResorts`
and `getNearestResortsFromHospital` — that share one algorithm: annotate
every target with its haversine distance from the origin, sort ascending by
that distance (`(a, b) => a.distance - b.distance`), and take a prefix
governed by `limit`, a soft ceiling `maxMiles` and a floor `minCount`.
The annotated records are modelled as `target × distance` pairs. -/

/-- The ordering induced by the comparator `(a, b) => a.distance - b.distance`. -/
def pairDistLE {α : Type} (a b : α × ℝ) : Prop :=
  a.2 ≤ b.2

noncomputable instance instDecidablePairDistLE {α : Type} :
    DecidableRel (@pairDistLE α) :=
  fun a b => inferInstanceAs (Decidable (a.2 ≤ b.2))

/-- The `withDistance` array of the lookups: each target paired with its
distance from the origin, sorted ascending. -/
noncomputable def nearestSorted {α : Type} (dist : α → ℝ) (targets : List α) :
    List (α × ℝ) :=
  (targets.map fun t => (t, dist t)).insertionSort pairDistLE

/-- The `withinRange` array: sorted entries within the soft ceiling. -/
noncomputable def withinCeiling {α : Type} (dist : α → ℝ) (targets : List α)
    (maxMiles : ℝ) : List (α × ℝ) :=
  (nearestSorted dist targets).filter fun t => decide (t.2 ≤ maxMiles)

/-- The shared body of the three nearest-K callbacks: if at least `minCount`
targets are within range return the first `limit` of them, otherwise return
the first `max minCount (min limit withinRange.length)` of the full sorted
list. -/
noncomputable def nearestByDistance {α : Type} (dist : α → ℝ) (targets : List α)
    (limit : ℕ) (maxMiles : ℝ) (minCount : ℕ) : List (α × ℝ) :=
  if minCount ≤ (withinCeiling dist targets maxMiles).length then
    (withinCeiling dist targets maxMiles).take limit
  else
    (nearestSorted dist targets).take
      (max minCount (min limit (withinCeiling dist targets maxMiles).length))

/-- `getNearestClinics` of `App.tsx` (defaults `limit = 5`, `maxMiles = 100`,
`minCount = 3` at the call sites). -/
noncomputable def getNearestClinics (clinics : List Clinic) (resort : Resort)
    (limit : ℕ) (maxMiles : ℝ) (minCount : ℕ) : List (Clinic × ℝ) :=
  nearestByDistance (fun c => haversine resort.coords c.coords DistanceUnit.miles)
    clinics limit maxMiles minCount

/-- `getNearestResorts` of `App.tsx`. -/
noncomputable def getNearestResorts (resorts : List Resort) (clinic : Clinic)
    (limit : ℕ) (maxMiles : ℝ) (minCount : ℕ) : List (Resort × ℝ) :=
  nearestByDistance (fun r => haversine clinic.coords r.coords DistanceUnit.miles)
    resorts limit maxMiles minCount

/-- `getNearestResortsFromHospital` of `App.tsx`. -/
noncomputable def getNearestResortsFromHospital (resorts : List Resort)
    (hospital : Hospital) (limit : ℕ) (maxMiles : ℝ) (minCount : ℕ) :
    List (Resort × ℝ) :=
  nearestByDistance (fun r => haversine hospital.coords r.coords DistanceUnit.miles)
    resorts limit maxMiles minCount

lemma pairDistLE_total {α : Type} : IsTotal (α × ℝ) pairDistLE :=
  ⟨fun _ _ => le_total _ _⟩

lemma pairDistLE_trans {α : Type} : IsTrans (α × ℝ) pairDistLE :=
  ⟨fun _ _ _ hab hbc => le_trans hab hbc⟩

lemma nearestSorted_sorted {α : Type} (dist : α → ℝ) (targets : List α) :
    (nearestSorted dist targets).Sorted pairDistLE := by
  haveI := pairDistLE_total (α := α)
  haveI := pairDistLE_trans (α := α)
  exact List.sorted_insertionSort _ _

lemma length_nearestSorted {α : Type} (dist : α → ℝ) (targets : List α) :
    (nearestSorted dist targets).length = targets.length := by
  unfold nearestSorted
  rw [List.length_insertionSort, List.length_map]

lemma mem_nearestSorted {α : Type} {dist : α → ℝ} {targets : List α} {x : α × ℝ} :
    x ∈ nearestSorted dist targets ↔ x ∈ targets.map fun t => (t, dist t) :=
  List.mem_insertionSort _

lemma length_withinCeiling_le {α : Type} (dist : α → ℝ) (targets : List α)
    (maxMiles : ℝ) :
    (withinCeiling dist targets maxMiles).length ≤ targets.length := by
  calc (withinCeiling dist targets maxMiles).length
      ≤ (nearestSorted dist targets).length := (List.filter_sublist _).length_le
    _ = targets.length := length_nearestSorted dist targets

/-- Floor guarantee of the lookup, valid whenever the floor does not exceed
the limit (as with the defaults `3 ≤ 5`). -/
lemma nearestByDistance_length_ge {α : Type} (dist : α → ℝ) (targets : List α)
    (limit : ℕ) (maxMiles : ℝ) (minCount : ℕ) (hfloor : minCount ≤ limit) :
    min minCount targets.length ≤
      (nearestByDistance dist targets limit maxMiles minCount).length := by
  have hW := length_withinCeiling_le dist targets maxMiles
  have hS := length_nearestSorted dist targets
  unfold nearestByDistance
  by_cases h : minCount ≤ (withinCeiling dist targets maxMiles).length
  · rw [if_pos h, List.length_take]
    omega
  · rw [if_neg h, List.length_take, hS]
    omega

/-- Limit bound of the lookup, valid whenever the floor does not exceed the
limit. -/
lemma nearestByDistance_length_le {α : Type} (dist : α → ℝ) (targets : List α)
    (limit : ℕ) (maxMiles : ℝ) (minCount : ℕ) (hfloor : minCount ≤ limit) :
    (nearestByDistance dist targets limit maxMiles minCount).length ≤ limit := by
  unfold nearestByDistance
  by_cases h : minCount ≤ (withinCeiling dist targets maxMiles).length
  · rw [if_pos h, List.length_take]
    omega
  · rw [if_neg h, List.length_take]
    omega

/-- In the sparse case the lookup is literally a prefix of the full sorted
list, of length `max minCount (min limit withinRange.length)`. -/
lemma nearestByDistance_fallback {α : Type} (dist : α → ℝ) (targets : List α)
    (limit : ℕ) (maxMiles : ℝ) (minCount : ℕ)
    (h : (withinCeiling dist targets maxMiles).length < minCount) :
    nearestByDistance dist targets limit maxMiles minCount =
      (nearestSorted dist targets).take
        (max minCount (min limit (withinCeiling dist targets maxMiles).length)) := by
  unfold nearestByDistance
  rw [if_neg (by omega)]

/-- Sample resort at the origin of the coordinate grid, for concrete
instantiations. -/
def sampleResort : Resort := ⟨"A", "A", "CO", 0, 0, none, "rockies", none⟩

/-- Sample clinic at the same point, with a configurable identifier. -/
def sampleClinic (n : String) : Clinic :=
  ⟨n, "F", "davita", "a", "c", "CO", "z", 0, 0, none⟩

/-- Sample hospital at the same point. -/
def sampleHospital : Hospital := ⟨"2", "H", "a", "c", "CO", "z", 0, 0, true, none⟩

lemma sampleResort_coords : sampleResort.coords = Coordinates.mk 0 0 := rfl

lemma sampleClinic_coords (n : String) :
    (sampleClinic n).coords = Coordinates.mk 0 0 := rfl

lemma haversine_sample_zero (n : String) :
    haversine sampleResort.coords (sampleClinic n).coords DistanceUnit.miles = 0 :=
  haversine_self (Coordinates.mk 0 0) DistanceUnit.miles

lemma nearestByDistance_sublist {α : Type} (dist : α → ℝ) (targets : List α)
    (limit : ℕ) (maxMiles : ℝ) (minCount : ℕ) :
    List.Sublist (nearestByDistance dist targets limit maxMiles minCount)
      (nearestSorted dist targets) := by
  unfold nearestByDistance withinCeiling
  by_cases h : minCount ≤ ((nearestSorted dist targets).filter
      fun t => decide (t.2 ≤ maxMiles)).length
  · rw [if_pos h]
    exact (List.take_sublist _ _).trans (List.filter_sublist _)
  · rw [if_neg h]
    exact List.take_sublist _ _

lemma nearestByDistance_sorted {α : Type} (dist : α → ℝ) (targets : List α)
    (limit : ℕ) (maxMiles : ℝ) (minCount : ℕ) :
    (nearestByDistance dist targets limit maxMiles minCount).Sorted pairDistLE :=
  List.Pairwise.sublist (nearestByDistance_sublist dist targets limit maxMiles minCount)
    (nearestSorted_sorted dist targets)

lemma head?_take {α : Type} {l : List α} {n : ℕ} {a : α}
    (h : (l.take n).head? = some a) : l.head? = some a := by
  cases l with
  | nil => simp at h
  | cons x xs =>
    cases n with
    | zero => simp at h
    | succ n => simpa using h

lemma head?_filter_of_sorted {α : Type} {S : List (α × ℝ)} {m : ℝ} {hd : α × ℝ}
    (hs : S.Sorted pairDistLE)
    (h : (S.filter fun t => decide (t.2 ≤ m)).head? = some hd) :
    S.head? = some hd := by
  cases S with
  | nil => simp at h
  | cons s rest =>
    by_cases hp : s.2 ≤ m
    · rw [List.filter_cons_of_pos (by simpa using hp)] at h
      simpa using h
    · exfalso
      have hin := List.mem_filter.mp (List.mem_of_mem_head? h)
      have hdm : hd.2 ≤ m := by simpa using hin.2
      have hshd : s.2 ≤ hd.2 := by
        rcases List.mem_cons.mp hin.1 with heq | hmem
        · rw [heq]
        · exact List.rel_of_sorted_cons hs _ hmem
      exact hp (le_trans hshd hdm)

lemma nearestByDistance_head?_eq {α : Type} {dist : α → ℝ} {targets : List α}
    {limit : ℕ} {maxMiles : ℝ} {minCount : ℕ} {hd : α × ℝ}
    (h : (nearestByDistance dist targets limit maxMiles minCount).head? = some hd) :
    (nearestSorted dist targets).head? = some hd := by
  unfold nearestByDistance at h
  by_cases hc : minCount ≤ (withinCeiling dist targets maxMiles).length
  · rw [if_pos hc] at h
    have h1 := head?_take h
    unfold withinCeiling at h1
    exact head?_filter_of_sorted (nearestSorted_sorted dist targets) h1
  · rw [if_neg hc] at h
    exact head?_take h

lemma nearestByDistance_head_min {α : Type} {dist : α → ℝ} {targets : List α}
    {limit : ℕ} {maxMiles : ℝ} {minCount : ℕ} {hd : α × ℝ}
    (h : (nearestByDistance dist targets limit maxMiles minCount).head? = some hd) :
    hd.1 ∈ targets ∧ hd.2 = dist hd.1 ∧ ∀ t ∈ targets, hd.2 ≤ dist t := by
  have hS := nearestByDistance_head?_eq h
  have hmem : hd ∈ nearestSorted dist targets := List.mem_of_mem_head? hS
  obtain ⟨t, ht, rfl⟩ := List.mem_map.mp (mem_nearestSorted.mp hmem)
  refine ⟨ht, rfl, ?_⟩
  intro u hu
  have humem : (u, dist u) ∈ nearestSorted dist targets :=
    mem_nearestSorted.mpr (List.mem_map.mpr ⟨u, hu, rfl⟩)
  have hsorted := nearestSorted_sorted dist targets
  cases hSl : nearestSorted dist targets with
  | nil =>
      rw [hSl] at hS
      simp at hS
  | cons s rest =>
      rw [hSl] at hS humem
      rw [hSl] at hsorted
      have hseq : s = (t, dist t) := by simpa using hS
      rcases List.mem_cons.mp humem with heq | hmem2
      · show (t, dist t).2 ≤ (u, dist u).2
        rw [← hseq, heq]
      · have hrel := List.rel_of_sorted_cons hsorted _ hmem2
        rw [hseq] at hrel
        exact hrel

/-- C1 (amended) — Nearest-K floor guarantee: for every origin, target
collection and parameter triple **with floor ≤ limit** (as the defaults
`3 ≤ 5` are), each of the three lookups returns at least
`min floor targets.length` entries. -/
theorem nearest_k_floor_guarantee (clinics : List Clinic) (resorts : List Resort)
    (resort : Resort) (clinic : Clinic) (hospital : Hospital)
    (limit : ℕ) (maxMiles : ℝ) (minCount : ℕ) (hfloor : minCount ≤ limit) :
    min minCount clinics.length ≤
        (getNearestClinics clinics resort limit maxMiles minCount).length ∧
    min minCount resorts.length ≤
        (getNearestResorts resorts clinic limit maxMiles minCount).length ∧
    min minCount resorts.length ≤
        (getNearestResortsFromHospital resorts hospital limit maxMiles minCount).length :=
  ⟨nearestByDistance_length_ge _ _ _ _ _ hfloor,
    nearestByDistance_length_ge _ _ _ _ _ hfloor,
    nearestByDistance_length_ge _ _ _ _ _ hfloor⟩

/-- Witness for C1 (amended) at the default parameters. -/
theorem nearest_k_floor_guarantee_witness :
    3 ≤ 5 ∧
      (min 3 [sampleClinic "1"].length ≤
          (getNearestClinics [sampleClinic "1"] sampleResort 5 100 3).length ∧
       min 3 [sampleResort].length ≤
          (getNearestResorts [sampleResort] (sampleClinic "1") 5 100 3).length ∧
       min 3 [sampleResort].length ≤
          (getNearestResortsFromHospital [sampleResort] sampleHospital 5 100 3).length) :=
  ⟨by norm_num, nearest_k_floor_guarantee _ _ _ _ _ 5 100 3 (by norm_num)⟩

/-- Counterexample to C1 as stated: with `limit = 0 < floor = 1` and one
in-range target, the lookup returns no entries although
`min floor targets.length = 1`. -/
theorem nearest_k_floor_guarantee_cx :
    (getNearestClinics [sampleClinic "1"] sampleResort 0 100 1).length <
      min 1 ([sampleClinic "1"] : List Clinic).length := by
  unfold getNearestClinics nearestByDistance withinCeiling nearestSorted
  norm_num [List.insertionSort, List.orderedInsert, List.filter, haversine_sample_zero]

/-- C2 (amended) — Limit bound and fallback formula: the lookup never
returns more than `limit` entries **provided floor ≤ limit** (as with the
defaults), and whenever fewer than `floor` targets are within the soft
ceiling it returns exactly the first
`max floor (min limit withinCeilingCount)` entries of the full sorted
list. -/
theorem nearest_k_limit_and_fallback (clinics : List Clinic) (resort : Resort)
    (limit : ℕ) (maxMiles : ℝ) (minCount : ℕ) :
    (minCount ≤ limit →
      (getNearestClinics clinics resort limit maxMiles minCount).length ≤ limit) ∧
    ((withinCeiling (fun c => haversine resort.coords c.coords DistanceUnit.miles)
          clinics maxMiles).length < minCount →
      getNearestClinics clinics resort limit maxMiles minCount =
        (nearestSorted (fun c => haversine resort.coords c.coords DistanceUnit.miles)
            clinics).take
          (max minCount (min limit
            (withinCeiling (fun c => haversine resort.coords c.coords DistanceUnit.miles)
              clinics maxMiles).length))) :=
  ⟨fun hfloor => nearestByDistance_length_le _ _ _ _ _ hfloor,
    fun hsparse => nearestByDistance_fallback _ _ _ _ _ hsparse⟩

/-- Witness for C2 (amended): empty clinic collection, default parameters. -/
theorem nearest_k_limit_and_fallback_witness :
    3 ≤ 5 ∧
      (withinCeiling
          (fun c : Clinic => haversine sampleResort.coords c.coords DistanceUnit.miles)
          [] 100).length < 3 ∧
      (getNearestClinics [] sampleResort 5 100 3).length ≤ 5 ∧
      getNearestClinics [] sampleResort 5 100 3 =
        (nearestSorted
            (fun c : Clinic => haversine sampleResort.coords c.coords DistanceUnit.miles)
            []).take
          (max 3 (min 5 (withinCeiling
            (fun c : Clinic => haversine sampleResort.coords c.coords DistanceUnit.miles)
            [] 100).length)) := by
  refine ⟨by norm_num, ?_, ?_, ?_⟩
  · unfold withinCeiling nearestSorted
    simp [List.insertionSort]
  · exact (nearest_k_limit_and_fallback [] _ 5 100 3).1 (by norm_num)
  · refine (nearest_k_limit_and_fallback [] _ 5 100 3).2 ?_
    unfold withinCeiling nearestSorted
    simp [List.insertionSort]

/-- Counterexample to C2 as stated: with `floor = 3 > limit = 2` and three
targets all beyond the (here negative) soft ceiling, the lookup returns 3
entries, exceeding `limit`. -/
theorem nearest_k_limit_cx :
    2 < (getNearestClinics
        [sampleClinic "1", sampleClinic "2", sampleClinic "3"]
        sampleResort 2 (-1) 3).length := by
  have hW : (withinCeiling
      (fun c : Clinic => haversine sampleResort.coords c.coords DistanceUnit.miles)
      [sampleClinic "1", sampleClinic "2", sampleClinic "3"] (-1)).length = 0 := by
    unfold withinCeiling
    rw [List.length_eq_zero]
    apply List.filter_eq_nil_iff.mpr
    intro x hx
    have hx' := mem_nearestSorted.mp hx
    have hzero : x.2 = 0 := by
      rcases List.mem_map.mp hx' with ⟨t, ht, rfl⟩
      have hco : haversine sampleResort.coords t.coords DistanceUnit.miles = 0 := by
        simp only [List.mem_cons, List.not_mem_nil, or_false] at ht
        rcases ht with h | h | h
        · rw [h]; exact haversine_sample_zero _
        · rw [h]; exact haversine_sample_zero _
        · rw [h]; exact haversine_sample_zero _
      exact hco
    simp [hzero]
  unfold getNearestClinics nearestByDistance
  rw [hW, if_neg (by norm_num), List.length_take, length_nearestSorted]
  norm_num

/-- C6 — Nearest-K ranking: the lookup's result is sorted ascending by
haversine distance from the origin, and its first entry (rank 0) is a
target-collection member at globally minimal distance. -/
theorem nearest_k_ranking (clinics : List Clinic) (resort : Resort)
    (limit : ℕ) (maxMiles : ℝ) (minCount : ℕ) :
    (getNearestClinics clinics resort limit maxMiles minCount).Sorted pairDistLE ∧
    (∀ hd, (getNearestClinics clinics resort limit maxMiles minCount).head? = some hd →
      hd.1 ∈ clinics ∧
      hd.2 = haversine resort.coords hd.1.coords DistanceUnit.miles ∧
      ∀ c ∈ clinics, hd.2 ≤ haversine resort.coords c.coords DistanceUnit.miles) :=
  ⟨nearestByDistance_sorted _ _ _ _ _,
    fun _ h => nearestByDistance_head_min h⟩

/-- The head entry of the sample nearest-clinic lookup. -/
noncomputable def sampleHead : Clinic × ℝ :=
  (sampleClinic "1",
    haversine sampleResort.coords (sampleClinic "1").coords DistanceUnit.miles)

/-- Witness for C6: singleton clinic collection at the resort's own
coordinates. -/
theorem nearest_k_ranking_witness :
    (getNearestClinics [sampleClinic "1"] sampleResort 5 100 3).head? = some sampleHead ∧
    (getNearestClinics [sampleClinic "1"] sampleResort 5 100 3).Sorted pairDistLE ∧
    sampleHead.1 ∈ [sampleClinic "1"] ∧
    sampleHead.2 = haversine sampleResort.coords sampleHead.1.coords DistanceUnit.miles ∧
    ∀ c ∈ [sampleClinic "1"],
      sampleHead.2 ≤ haversine sampleResort.coords c.coords DistanceUnit.miles := by
  have hhead : (getNearestClinics [sampleClinic "1"] sampleResort 5 100 3).head?
      = some sampleHead := by
    unfold getNearestClinics nearestByDistance withinCeiling nearestSorted sampleHead
    norm_num [List.insertionSort, List.orderedInsert, List.filter, haversine_sample_zero]
  have hmin := (nearest_k_ranking [sampleClinic "1"] sampleResort 5 100 3).2
    sampleHead hhead
  exact ⟨hhead, (nearest_k_ranking [sampleClinic "1"] sampleResort 5 100 3).1,
    hmin.1, hmin.2.1, hmin.2.2⟩

/-! ## The data loader (claim C9) — `src/hooks/useData.ts`

The loader fetches static JSON and normalises it:
`resorts.map(r => (\x7b ...r, id: r.id || name|state, region: r.region || "other" \x7d))`,
`clinics.map(c => (\x7b ...c, provider: c.provider || "davita" \x7d))`; hospital and
urgent-care JSON is used as parsed.  Raw records are `Partial` types: any
field, coordinates included, may be absent. -/

/-- A raw resort record as parsed from `resorts.json` (`Partial<Resort>`). -/
structure RawResort where
  id : Option String
  name : String
  state : String
  lat : Option ℝ
  lon : Option ℝ
  passNetwork : Option PassNetwork
  region : Option String

/-- A raw clinic record as parsed from `clinics.json`. -/
structure RawClinic where
  ccn : String
  facility : String
  provider : Option String
  city : String
  state : String
  lat : Option ℝ
  lon : Option ℝ

/-- A raw hospital record as parsed from `hospitals.json`. -/
structure RawHospital where
  id : String
  name : String
  state : String
  lat : Option ℝ
  lon : Option ℝ

/-- A raw urgent-care record as parsed from `urgent_care.json`. -/
structure RawFacility where
  id : String
  name : String
  state : String
  lat : Option ℝ
  lon : Option ℝ

/-- JS `x || dflt` on an optional string: the empty string is falsy. -/
def jsOr (v : Option String) (dflt : String) : String :=
  match v with
  | some s => if s = "" then dflt else s
  | none => dflt

/-- Resort normalisation of the loader: default the id and region, leave
everything else — coordinates included — exactly as parsed. -/
def loadResorts (raw : List RawResort) : List RawResort :=
  raw.map fun r =>
    { r with
      id := some (jsOr r.id (r.name ++ "|" ++ r.state))
      region := some (jsOr r.region "other") }

/-- Clinic normalisation of the loader: default the provider chain. -/
def loadClinics (raw : List RawClinic) : List RawClinic :=
  raw.map fun c => { c with provider := some (jsOr c.provider "davita") }

/-- Hospitals are used exactly as parsed from JSON. -/
def loadHospitals (raw : List RawHospital) : List RawHospital := raw

/-- Urgent-care facilities are used exactly as parsed from JSON. -/
def loadUrgentCare (raw : List RawFacility) : List RawFacility := raw

/-- A resort record with no coordinates at all. -/
def badRawResort : RawResort := ⟨none, "X", "CO", none, none, none, none⟩

/-- Counterexample to C9 as stated: the loader does not exclude a record
lacking coordinates — it is loaded verbatim (modulo id/region defaults),
still with no latitude or longitude. -/
theorem coordinate_presence_cx :
    loadResorts [badRawResort] =
        [{ badRawResort with id := some "X|CO", region := some "other" }] ∧
    ({ badRawResort with id := some "X|CO", region := some "other" } : RawResort).lat
        = none := by
  constructor
  · unfold loadResorts badRawResort jsOr
    simp
  · rfl

/-- C9 (amended) — the loader performs no coordinate validation: it
preserves every record (same collection lengths) and leaves latitude and
longitude untouched; records lacking coordinates reach the filter/sort
engine rather than being excluded.  The coordinate-presence invariant
therefore holds only if the shipped JSON supplies coordinates on every
record. -/
theorem loader_preserves_records (rawResorts : List RawResort)
    (rawClinics : List RawClinic) (rawHospitals : List RawHospital)
    (rawUrgent : List RawFacility) :
    (loadResorts rawResorts).length = rawResorts.length ∧
    (loadResorts rawResorts).map RawResort.lat = rawResorts.map RawResort.lat ∧
    (loadResorts rawResorts).map RawResort.lon = rawResorts.map RawResort.lon ∧
    (loadClinics rawClinics).length = rawClinics.length ∧
    (loadClinics rawClinics).map RawClinic.lat = rawClinics.map RawClinic.lat ∧
    (loadClinics rawClinics).map RawClinic.lon = rawClinics.map RawClinic.lon ∧
    loadHospitals rawHospitals = rawHospitals ∧
    loadUrgentCare rawUrgent = rawUrgent := by
  unfold loadResorts loadClinics loadHospitals loadUrgentCare
  refine ⟨List.length_map _ _, ?_, ?_, List.length_map _ _, ?_, ?_, rfl, rfl⟩ <;>
    rw [List.map_map] <;> rfl

end SkiWithCare
